import Mathlib

/-!
Verification of the stream process supervisor in `server.js`
(the fuller variant of the server; an older variant agrees on all shared logic).

The embedding translates the JavaScript source line by line:
* string helpers model `String.prototype.startsWith` / `includes` / the two
  regex replaces (`/\\/g` → char map, `/\/?$/` → trailing-slash check);
* `ffmpegArgs` models the argument construction in `startFFmpegStream`;
* `detStep` models the `stderr`/`exit`/timeout handlers registered in
  `startFFmpegStream` on the spawned process, with the `Promise` settlement
  rule (first `resolve`/`reject` wins) made explicit;
* `killStreamProcess`, `goLiveCheck`, `stopHandler` model the utility
  function and the `/api/go-live` and `/api/stop` request handlers;
* `raceStep` models the individual atomic steps the go-live handler performs
  on the shared globals `currentStreamProcess` / `streamStatus`, so that
  interleavings of two concurrent requests can be examined.
-/

namespace YTLive

/-- JS truthiness of an optional string request field: absent and `""` are falsy
(`if (!streamUrl || !streamKey)`, `else if (videoLink)`). -/
def jsFalsy : Option String → Bool
  | none => true
  | some s => s == ""

/-- Model of `String.prototype.startsWith` via character lists. -/
def strStartsWith (s p : String) : Bool :=
  p.toList.isPrefixOf s.toList

/-- Model of `String.prototype.endsWith` via character lists. -/
def strEndsWith (s p : String) : Bool :=
  p.toList.isSuffixOf s.toList

/-- Model of `String.prototype.includes`: some suffix of `s` has `pat` as a
leading segment. -/
def strContains (s pat : String) : Bool :=
  s.toList.tails.any (fun t => pat.toList.isPrefixOf t)

/-- `inputSource.replace(/\\/g, "/")`: every backslash character becomes a
forward slash. -/
def replaceBackslashes (s : String) : String :=
  ⟨s.toList.map (fun c => if c = '\\' then '/' else c)⟩

/-- Lines 401–403 of the server: the input path is rewritten **only when it
starts with** `"C:"` (`if (inputSource.startsWith("C:")) inputSource =
inputSource.replace(/\\/g, "/")`). -/
def normalizeInputSource (inputSource : String) : String :=
  if strStartsWith inputSource "C:" then replaceBackslashes inputSource
  else inputSource

/-- `streamUrl.replace(/\/?$/, "/")`: the regex replaces an optional trailing
slash with a slash, i.e. it appends `"/"` exactly when the URL does not already
end with one. -/
def ensureTrailingSlash (u : String) : String :=
  if strEndsWith u "/" then u else u ++ "/"

/-- Line 405: `const rtmpUrl = streamUrl.replace(/\/?$/, "/") + streamKey`. -/
def rtmpUrl (streamUrl streamKey : String) : String :=
  ensureTrailingSlash streamUrl ++ streamKey

/-- Lines 407–440: the FFmpeg argument list built in `startFFmpegStream`.
`["-re"]`, then `"-stream_loop" "-1"` when `shouldLoop`, then the (normalized)
input behind `-i`, the fixed encoding parameters, `-f flv`, and the RTMP URL
last. -/
def ffmpegArgs (inputSource streamUrl streamKey : String) (shouldLoop : Bool) :
    List String :=
  (["-re"] ++ (if shouldLoop then ["-stream_loop", "-1"] else [])) ++
  ["-i", normalizeInputSource inputSource,
   "-c:v", "libx264",
   "-preset", "veryfast",
   "-maxrate", "3000k",
   "-bufsize", "6000k",
   "-pix_fmt", "yuv420p",
   "-g", "50",
   "-c:a", "aac",
   "-b:a", "128k",
   "-ac", "2",
   "-ar", "44100",
   "-f", "flv",
   rtmpUrl streamUrl streamKey]

/-- Everything in `ffmpegArgs` except the final RTMP URL (used to state where
the destination, and hence the stream key, sits in the sequence). -/
def ffmpegArgsFront (inputSource : String) (shouldLoop : Bool) : List String :=
  (["-re"] ++ (if shouldLoop then ["-stream_loop", "-1"] else [])) ++
  ["-i", normalizeInputSource inputSource,
   "-c:v", "libx264",
   "-preset", "veryfast",
   "-maxrate", "3000k",
   "-bufsize", "6000k",
   "-pix_fmt", "yuv420p",
   "-g", "50",
   "-c:a", "aac",
   "-b:a", "128k",
   "-ac", "2",
   "-ar", "44100",
   "-f", "flv"]

/-- Model of `Array.prototype.join(" ")` as used on the argument array. -/
def joinSpace : List String → String
  | [] => ""
  | [x] => x
  | x :: y :: rest => x ++ " " ++ joinSpace (y :: rest)

/-- Line 442: `console.log("Starting FFmpeg with args:", ffmpegArgs.join(" "))`
— the text written to the server log when a stream starts. -/
def ffmpegLogLine (inputSource streamUrl streamKey : String)
    (shouldLoop : Bool) : String :=
  "Starting FFmpeg with args: " ++
    joinSpace (ffmpegArgs inputSource streamUrl streamKey shouldLoop)

lemma ffmpegArgs_eq_front_append (i u k : String) (l : Bool) :
    ffmpegArgs i u k l = ffmpegArgsFront i l ++ [rtmpUrl u k] := by
  cases l <;> rfl

/-- C4: the command builder deterministically produces the documented argument
sequence: `-re` first, the loop flag (when requested) before `-i`, the fixed
H.264/AAC parameters, `-f flv`, and the destination RTMP URL as the final
argument; equal inputs give identical sequences. -/
theorem commandBuilderDeterministic (i u k : String) :
    ffmpegArgs i u k false =
      ["-re", "-i", normalizeInputSource i, "-c:v", "libx264", "-preset",
       "veryfast", "-maxrate", "3000k", "-bufsize", "6000k", "-pix_fmt",
       "yuv420p", "-g", "50", "-c:a", "aac", "-b:a", "128k", "-ac", "2",
       "-ar", "44100", "-f", "flv", rtmpUrl u k] ∧
    ffmpegArgs i u k true =
      ["-re", "-stream_loop", "-1", "-i", normalizeInputSource i, "-c:v",
       "libx264", "-preset", "veryfast", "-maxrate", "3000k", "-bufsize",
       "6000k", "-pix_fmt", "yuv420p", "-g", "50", "-c:a", "aac", "-b:a",
       "128k", "-ac", "2", "-ar", "44100", "-f", "flv", rtmpUrl u k] ∧
    (∀ l : Bool, (ffmpegArgs i u k l).head? = some "-re") ∧
    (∀ l : Bool, (ffmpegArgs i u k l).getLast? = some (rtmpUrl u k)) ∧
    (∀ (i2 u2 k2 : String) (l l2 : Bool), i = i2 → u = u2 → k = k2 → l = l2 →
       ffmpegArgs i u k l = ffmpegArgs i2 u2 k2 l2) := by
  refine ⟨rfl, rfl, ?_, ?_, ?_⟩
  · intro l; cases l <;> rfl
  · intro l; cases l <;> rfl
  · intro i2 u2 k2 l l2 hi hu hk hl; rw [hi, hu, hk, hl]

/-- Instantiation of the determinism clause of `commandBuilderDeterministic`
at concrete inputs. -/
theorem commandBuilderDeterministicApplied :
    ffmpegArgs "a.mp4" "rtmp://a.rtmp.youtube.com/live2" "key" true =
      ffmpegArgs "a.mp4" "rtmp://a.rtmp.youtube.com/live2" "key" true ∧
    (ffmpegArgs "a.mp4" "rtmp://a.rtmp.youtube.com/live2" "key" true).head? =
      some "-re" :=
  ⟨(commandBuilderDeterministic "a.mp4" "rtmp://a.rtmp.youtube.com/live2"
      "key").2.2.2.2 "a.mp4" "rtmp://a.rtmp.youtube.com/live2" "key" true true
      rfl rfl rfl rfl,
   (commandBuilderDeterministic "a.mp4" "rtmp://a.rtmp.youtube.com/live2"
      "key").2.2.1 true⟩

/-- C7 counterexample: a Windows path on any drive other than `C:` is passed
through with its backslashes intact — the normalization is gated on the
`"C:"` path syntax, contradicting "regardless of what the path starts with". -/
theorem normalizeKeepsOtherDrives :
    normalizeInputSource "D:\\videos\\clip.mp4" = "D:\\videos\\clip.mp4" ∧
    '\\' ∈ "D:\\videos\\clip.mp4".toList := by
  constructor
  · rfl
  · decide

/-- C7 (amended): backslash separators are converted to forward slashes only
when the input source starts with `"C:"`; every other input source reaches the
argument list unchanged, backslashes included. -/
theorem normalizeOnlyCDrive :
    (∀ s : String, strStartsWith s "C:" = false → normalizeInputSource s = s) ∧
    normalizeInputSource "C:\\videos\\clip.mp4" = "C:/videos/clip.mp4" := by
  constructor
  · intro s h
    unfold normalizeInputSource
    rw [h]
    simp
  · rfl

/-- Instantiation of `normalizeOnlyCDrive` at a concrete non-`C:` input. -/
theorem normalizeOnlyCDriveApplied :
    normalizeInputSource "https://example.com/v.mp4" =
      "https://example.com/v.mp4" :=
  normalizeOnlyCDrive.1 "https://example.com/v.mp4" (by decide)

/-! ## Readiness detection and process-exit handling

`startFFmpegStream` (lines 444–487) registers handlers on the spawned process:
a `stderr` data handler that resolves the start promise on the first chunk
containing `"Stream mapping:"` or `"Press [q] to stop"`, an `exit` handler,
and a 30-second `setTimeout`.  `detStep` replays one such callback on the
session's state; a JS promise settles at most once, which `settle` encodes. -/

/-- Line 454–457: the readiness test applied to a stderr chunk. -/
def isReadyChunk (out : String) : Bool :=
  strContains out "Stream mapping:" || strContains out "Press [q] to stop"

/-- Lines 476–477 of the `exit` handler:
`if (code === 0) streamStatus = "idle"; else if (code !== null) streamStatus =
"error";` — a `null` code (process terminated by a signal) assigns nothing. -/
def exitHandlerStatus (status : String) (code : Option Int) : String :=
  if code = some 0 then "idle"
  else if code ≠ none then "error"
  else status

/-- The settlement of the promise returned by `startFFmpegStream`. -/
inductive Verdict
  | ready
  | failed (code : Option Int)
  | timedOut
deriving DecidableEq, Repr

/-- A promise settles only once: later `resolve`/`reject` calls are no-ops. -/
def settle (v : Verdict) : Option Verdict → Option Verdict
  | none => some v
  | some w => some w

/-- State of one `startFFmpegStream` session: the `streamStarted` flag, the
promise settlement, the shared `streamStatus` string, whether
`currentStreamProcess` still references the process, and the termination
signals this session's handlers have sent to it. -/
structure DetSt where
  streamStarted : Bool
  settled : Option Verdict
  streamStatus : String
  handleHeld : Bool
  signals : List String
deriving DecidableEq, Repr

/-- The callbacks that can fire for a launched session. -/
inductive FFEvent
  | stderrChunk (out : String)
  | exited (code : Option Int)
  | readinessTimeout
deriving DecidableEq, Repr

/-- One callback, as written in lines 451–487:
* stderr chunk (451–463): on the first match, set `streamStarted`, set status
  `"live"`, resolve;
* exit (472–481): update the status per `exitHandlerStatus`, clear
  `currentStreamProcess`, and reject with the code when not started and the
  code is not `0`;
* 30 s timeout (483–486): reject with a timeout error when not started — the
  handler sends **no** signal and leaves `currentStreamProcess` untouched. -/
def detStep (st : DetSt) : FFEvent → DetSt
  | .stderrChunk out =>
      if st.streamStarted = false ∧ isReadyChunk out = true then
        { st with streamStarted := true, streamStatus := "live",
                  settled := settle .ready st.settled }
      else st
  | .exited code =>
      { st with streamStatus := exitHandlerStatus st.streamStatus code,
                handleHeld := false,
                settled :=
                  if st.streamStarted = false ∧ code ≠ some 0 then
                    settle (.failed code) st.settled
                  else st.settled }
  | .readinessTimeout =>
      { st with settled :=
                  if st.streamStarted = false then settle .timedOut st.settled
                  else st.settled }

/-- Replay a list of callbacks in order. -/
def detRun (st : DetSt) (evs : List FFEvent) : DetSt :=
  evs.foldl detStep st

/-- State right after `spawn` returns inside `startFFmpegStream` (the go-live
handler has already set `streamStatus = "starting"`). -/
def detInit : DetSt :=
  { streamStarted := false, settled := none, streamStatus := "starting",
    handleHeld := true, signals := [] }

/-- State of a session whose readiness line has fired: status `"live"`,
promise resolved, process handle held. -/
def detLive : DetSt :=
  { streamStarted := true, settled := some .ready, streamStatus := "live",
    handleHeld := true, signals := [] }

lemma settle_ne_none (v : Verdict) (s : Option Verdict) : settle v s ≠ none := by
  cases s <;> simp [settle]

lemma detStep_keeps_settled (st : DetSt) (e : FFEvent) (v : Verdict)
    (h : st.settled = some v) : (detStep st e).settled = some v := by
  cases e <;> simp only [detStep] <;> split <;> simp [settle, h]

lemma detRun_keeps_settled :
    ∀ (evs : List FFEvent) (st : DetSt) (v : Verdict),
      st.settled = some v → (detRun st evs).settled = some v := by
  intro evs
  induction evs with
  | nil => intro st v h; exact h
  | cons e evs ih =>
      intro st v h
      exact ih (detStep st e) v (detStep_keeps_settled st e v h)

/-- Once `streamStarted` is set, the promise has been resolved. -/
def DetInv (st : DetSt) : Prop := st.streamStarted = true → st.settled ≠ none

lemma detStep_inv (st : DetSt) (e : FFEvent) (h : DetInv st) :
    DetInv (detStep st e) := by
  cases e with
  | stderrChunk out =>
      intro hs
      by_cases hc : st.streamStarted = false ∧ isReadyChunk out = true
      · simp [detStep, hc, settle_ne_none]
      · simp only [detStep, if_neg hc] at hs ⊢; exact h hs
  | exited code =>
      intro hs
      simp only [detStep] at hs ⊢
      split
      · exact settle_ne_none _ _
      · exact h hs
  | readinessTimeout =>
      intro hs
      simp only [detStep] at hs ⊢
      split
      · exact settle_ne_none _ _
      · exact h hs

lemma detStep_timeout_settles (st : DetSt) (h : DetInv st) :
    (detStep st .readinessTimeout).settled ≠ none := by
  by_cases hs : st.streamStarted = false
  · simp [detStep, hs, settle_ne_none]
  · have hs' : st.streamStarted = true := by
      cases hb : st.streamStarted
      · exact absurd hb hs
      · rfl
    simp only [detStep, if_neg hs]
    exact h hs'

lemma detRun_timeout_mem :
    ∀ (evs : List FFEvent) (st : DetSt), DetInv st →
      FFEvent.readinessTimeout ∈ evs → (detRun st evs).settled ≠ none := by
  intro evs
  induction evs with
  | nil => intro st _ h; cases h
  | cons e evs ih =>
      intro st hInv hmem
      rcases List.mem_cons.mp hmem with he | hmem'
      · have h1 : (detStep st e).settled ≠ none := by
          rw [← he] at *
          exact detStep_timeout_settles st hInv
        obtain ⟨v, hv⟩ := Option.ne_none_iff_exists'.mp h1
        have : (detRun (detStep st e) evs).settled = some v :=
          detRun_keeps_settled evs (detStep st e) v hv
        show (detRun (detStep st e) evs).settled ≠ none
        rw [this]; simp
      · exact ih (detStep st e) (detStep_inv st e hInv) hmem'

/-- C1 counterexample: a `Live` session whose process is terminated by an
external signal (exit event with a `null` code) keeps `streamStatus = "live"`
even though the process has exited and `currentStreamProcess` was cleared —
the status does not transition to `"error"`. -/
theorem liveSignalExitStaysLive :
    (detStep detLive (.exited none)).streamStatus = "live" ∧
    (detStep detLive (.exited none)).handleHeld = false ∧
    "live" ≠ "error" := by
  refine ⟨rfl, rfl, by decide⟩

/-- C1 (amended): when the process of a `Live` session exits, the exit handler
sets status `"error"` only for a non-null, non-zero exit code; exit code `0`
sets status `"idle"`, and termination by an external signal (`null` code)
leaves the status untouched, so the session can remain `Live` after its
process has exited.  The exit code is only logged, not stored. -/
theorem liveExitStatus (c : Int) (hc : c ≠ 0) :
    (detStep detLive (.exited (some c))).streamStatus = "error" ∧
    (detStep detLive (.exited (some 0))).streamStatus = "idle" ∧
    (detStep detLive (.exited none)).streamStatus = "live" ∧
    (detStep detLive (.exited none)).handleHeld = false := by
  refine ⟨?_, rfl, rfl, rfl⟩
  simp [detStep, detLive, exitHandlerStatus, hc]

/-- Instantiation of `liveExitStatus` at exit code 137. -/
theorem liveExitStatusApplied :
    (detStep detLive (.exited (some 137))).streamStatus = "error" :=
  (liveExitStatus 137 (by decide)).1

/-- C2: when the 30-second readiness timer fires without a ready verdict, the
timeout handler only rejects the start promise: it sends no termination
signal and leaves `currentStreamProcess` in place, so the straggler FFmpeg
process keeps running after `Start` has reported the timeout error. -/
theorem readinessTimeoutLeavesOrphan :
    (detRun detInit [.readinessTimeout]).settled = some .timedOut ∧
    (detRun detInit [.readinessTimeout]).handleHeld = true ∧
    (detRun detInit [.readinessTimeout]).signals = [] := by
  refine ⟨rfl, rfl, rfl⟩

/-- C3 counterexample: a process that exits with code `0` before any readiness
line produces **no** failed verdict — the promise stays unsettled (the reject
guard requires a non-zero code), even though the process is gone. -/
theorem exitZeroBeforeReadyNoVerdict :
    (detRun detInit [.exited (some 0)]).settled = none ∧
    (detRun detInit [.exited (some 0)]).handleHeld = false := by
  refine ⟨rfl, rfl⟩

/-- C3 (amended): a pre-ready exit with a code other than `0` (including the
`null` code of a signal termination) settles the start promise with a
"failed to start" verdict carrying that code; a pre-ready exit with code `0`
settles nothing.  The promise settles at most once — its first verdict is
kept across all later callbacks — and any callback sequence containing the
30-second timeout ends with at least one verdict. -/
theorem detectorVerdicts :
    (∀ (c : Option Int) (evs : List FFEvent), c ≠ some 0 →
       (detRun detInit (.exited c :: evs)).settled = some (.failed c)) ∧
    (∀ (st : DetSt) (v : Verdict) (evs : List FFEvent), st.settled = some v →
       (detRun st evs).settled = some v) ∧
    (∀ evs : List FFEvent, FFEvent.readinessTimeout ∈ evs →
       (detRun detInit evs).settled ≠ none) := by
  refine ⟨?_, ?_, ?_⟩
  · intro c evs hc
    have h1 : (detStep detInit (.exited c)).settled = some (.failed c) := by
      simp [detStep, detInit, settle, hc]
    exact detRun_keeps_settled evs (detStep detInit (.exited c)) _ h1
  · intro st v evs h
    exact detRun_keeps_settled evs st v h
  · intro evs h
    refine detRun_timeout_mem evs detInit ?_ h
    intro h'
    simp [detInit] at h'

/-- Instantiation of the three clauses of `detectorVerdicts` at concrete
callback sequences. -/
theorem detectorVerdictsApplied :
    (detRun detInit [FFEvent.exited none]).settled =
      some (Verdict.failed none) ∧
    (detRun { detInit with settled := some Verdict.ready }
        [FFEvent.readinessTimeout]).settled = some Verdict.ready ∧
    (detRun detInit [FFEvent.readinessTimeout]).settled ≠ none :=
  ⟨detectorVerdicts.1 none [] (by decide),
   detectorVerdicts.2.1 { detInit with settled := some Verdict.ready }
     Verdict.ready [FFEvent.readinessTimeout] rfl,
   detectorVerdicts.2.2 [FFEvent.readinessTimeout] (by decide)⟩

/-! ## The supervisor globals and the request handlers

`currentStreamProcess` and `streamStatus` are module-level variables
(lines 335–336).  `killStreamProcess` (381–396) and the `/api/go-live`
(491–561) and `/api/stop` (564–611) handlers below are modelled as state
transformers; the exit code of the killed process and whether it exits within
the 5-second grace period are inputs of the model, since they come from the
operating system. -/

/-- The supervisor's shared state: `currentStreamProcess` (a process id when a
handle is held), the handle's `.killed` flag (set once `kill()` has delivered
a signal), `streamStatus`, the signals sent so far, and the status of the
user's most recent persisted `Stream` record. -/
structure SupSt where
  handle : Option Nat
  killedFlag : Bool
  streamStatus : String
  signals : List (Nat × String)
  dbStatus : Option String
deriving DecidableEq, Repr

/-- `killStreamProcess` (lines 381–396): if a process is held and its
`.killed` flag is unset, send `SIGTERM` and wait; when the process exits
within the grace period, the `exit` listeners run — the one registered in
`startFFmpegStream` first (status update per `exitHandlerStatus`, clear
`currentStreamProcess`), then the one registered here (clear and resolve).
When it does not, the 5-second timer resolves without clearing the handle
(and, because `.killed` is already true after the `SIGTERM`, the
`SIGKILL` branch is dead code).  With no process held, or with `.killed`
already set, the promise resolves immediately and nothing changes. -/
def killStreamProcess (exitsWithinGrace : Bool) (exitCode : Option Int)
    (st : SupSt) : SupSt :=
  match st.handle with
  | some p =>
      if st.killedFlag = true then st
      else
        let st1 := { st with signals := st.signals ++ [(p, "SIGTERM")],
                             killedFlag := true }
        if exitsWithinGrace = true then
          { st1 with
              streamStatus := exitHandlerStatus st1.streamStatus exitCode,
              handle := none }
        else st1
  | none => st

/-- What the go-live handler decides to do after its validation stage. -/
inductive GoLiveNext
  | respond (httpStatus : Nat) (body : String)
  | spawnFF (inputSource : String) (shouldLoop : Bool)
deriving DecidableEq, Repr

/-- The request fields of `POST /api/go-live` that the handler reads. -/
structure GoLiveReq where
  streamUrl : Option String
  streamKey : Option String
  uploadedFile : Option String
  videoLink : Option String
  loopVideo : Bool
deriving DecidableEq, Repr

/-- The `/api/go-live` handler up to (and excluding) the call of
`startFFmpegStream` (lines 491–534):
1. missing/empty `streamUrl` or `streamKey` → 400, before anything else;
2. `if (currentStreamProcess) await killStreamProcess()`;
3. `streamStatus = "starting"`;
4. pick the uploaded file, else a truthy `videoLink`, else → 400;
5. `streamUrl` must contain `"rtmp://"`, else → 400;
6. create the `Stream` record with status `"starting"` and proceed to spawn. -/
def goLiveCheck (req : GoLiveReq) (oldExitsWithinGrace : Bool)
    (oldExitCode : Option Int) (st : SupSt) : SupSt × GoLiveNext :=
  if jsFalsy req.streamUrl = true ∨ jsFalsy req.streamKey = true then
    (st, .respond 400 "Stream URL and Stream Key are required")
  else
    let st1 :=
      if st.handle.isSome = true then
        killStreamProcess oldExitsWithinGrace oldExitCode st
      else st
    let st2 := { st1 with streamStatus := "starting" }
    let inputChoice : Option String :=
      match req.uploadedFile with
      | some f => some f
      | none => if jsFalsy req.videoLink = true then none else req.videoLink
    match inputChoice with
    | none => (st2, .respond 400 "Either video file or video link is required")
    | some input =>
        if strContains (req.streamUrl.getD "") "rtmp://" = true then
          ({ st2 with dbStatus := some "starting" },
           .spawnFF input req.loopVideo)
        else (st2, .respond 400 "Invalid RTMP stream URL")

/-- The status values assigned to `streamStatus`, in order, while `/api/stop`
runs: `"stopping"` on entry; inside the kill, the `exit` handler of
`startFFmpegStream` assigns `"idle"` for exit code `0`, `"error"` for a
non-null non-zero code, and nothing for a `null` code; finally `"idle"`. -/
def exitStatusWrite (code : Option Int) : List String :=
  match code with
  | some c => if c = 0 then ["idle"] else ["error"]
  | none => []

/-- Result of one `/api/stop` request. -/
structure StopResult where
  final : SupSt
  httpStatus : Nat
  respStatus : String
  statusWrites : List String
deriving DecidableEq, Repr

/-- The `/api/stop` handler (lines 564–611): set `streamStatus = "stopping"`;
find the user's `Stream` record with status `"live"` and mark it
`"stopping"`; `await killStreamProcess()`; set `streamStatus = "idle"`; mark
the record `"stopped"`; respond 200 with `status: "idle"`. -/
def stopHandler (exitsWithinGrace : Bool) (exitCode : Option Int)
    (st : SupSt) : StopResult :=
  let st1 := { st with streamStatus := "stopping" }
  let activeFound := st1.dbStatus = some "live"
  let st2 := if activeFound then { st1 with dbStatus := some "stopping" }
             else st1
  let st3 := killStreamProcess exitsWithinGrace exitCode st2
  let st4 := { st3 with streamStatus := "idle" }
  let st5 := if activeFound then { st4 with dbStatus := some "stopped" }
             else st4
  { final := st5,
    httpStatus := 200,
    respStatus := "idle",
    statusWrites :=
      ["stopping"] ++
      (match st.handle with
       | some _ =>
           if st.killedFlag = true then []
           else if exitsWithinGrace = true then exitStatusWrite exitCode
           else []
       | none => []) ++
      ["idle"] }

/-- A supervisor state with a live, unkilled process 7 and a matching
persisted record. -/
def liveSt : SupSt :=
  { handle := some 7, killedFlag := false, streamStatus := "live",
    signals := [], dbStatus := some "live" }

/-- C5 counterexample: a go-live request with stream URL and key but neither a
file nor a link is rejected with 400 only **after** the handler has killed the
existing process and set `streamStatus = "starting"` — the rejection is not
side-effect free. -/
theorem goLiveMissingInputHasSideEffects :
    (goLiveCheck
        { streamUrl := some "rtmp://a.rtmp.youtube.com/live2/",
          streamKey := some "key", uploadedFile := none, videoLink := none,
          loopVideo := false } true none liveSt).2 =
      .respond 400 "Either video file or video link is required" ∧
    (goLiveCheck
        { streamUrl := some "rtmp://a.rtmp.youtube.com/live2/",
          streamKey := some "key", uploadedFile := none, videoLink := none,
          loopVideo := false } true none liveSt).1.signals =
      [(7, "SIGTERM")] ∧
    (goLiveCheck
        { streamUrl := some "rtmp://a.rtmp.youtube.com/live2/",
          streamKey := some "key", uploadedFile := none, videoLink := none,
          loopVideo := false } true none liveSt).1.streamStatus =
      "starting" ∧
    (goLiveCheck
        { streamUrl := some "rtmp://a.rtmp.youtube.com/live2/",
          streamKey := some "key", uploadedFile := none, videoLink := none,
          loopVideo := false } true none liveSt).1.handle = none := by
  refine ⟨rfl, rfl, rfl, rfl⟩

/-- C5 (amended): a request with a missing or empty stream URL or stream key
is rejected with 400 before any side effect — state unchanged, no process
signalled, nothing spawned.  A request that passes that check but carries no
input source is still rejected before any spawn, but only after the handler
has signalled any existing process and set `streamStatus` to `"starting"`. -/
theorem goLiveValidation :
    (∀ (req : GoLiveReq) (g : Bool) (c : Option Int) (st : SupSt),
       (jsFalsy req.streamUrl = true ∨ jsFalsy req.streamKey = true) →
       goLiveCheck req g c st =
         (st, .respond 400 "Stream URL and Stream Key are required")) ∧
    (∀ (req : GoLiveReq) (g : Bool) (c : Option Int) (st : SupSt) (p : Nat),
       jsFalsy req.streamUrl = false → jsFalsy req.streamKey = false →
       req.uploadedFile = none → jsFalsy req.videoLink = true →
       st.handle = some p → st.killedFlag = false →
       (goLiveCheck req g c st).2 =
         .respond 400 "Either video file or video link is required" ∧
       (goLiveCheck req g c st).1.streamStatus = "starting" ∧
       (goLiveCheck req g c st).1.signals = st.signals ++ [(p, "SIGTERM")]) := by
  constructor
  · intro req g c st h
    simp [goLiveCheck, h]
  · intro req g c st p hu hk hf hv hp hkf
    have hcond : ¬ (jsFalsy req.streamUrl = true ∨ jsFalsy req.streamKey = true) := by
      simp [hu, hk]
    cases g <;>
      simp [goLiveCheck, hcond, hf, hv, hp, killStreamProcess, hkf]

/-- Instantiation of both clauses of `goLiveValidation` at concrete inputs. -/
theorem goLiveValidationApplied :
    goLiveCheck
        { streamUrl := none, streamKey := some "key", uploadedFile := none,
          videoLink := some "v", loopVideo := false } true none liveSt =
      (liveSt, .respond 400 "Stream URL and Stream Key are required") ∧
    (goLiveCheck
        { streamUrl := some "rtmp://a/live2/", streamKey := some "key",
          uploadedFile := none, videoLink := some "", loopVideo := false }
        true none liveSt).1.signals = liveSt.signals ++ [(7, "SIGTERM")] :=
  ⟨goLiveValidation.1
      { streamUrl := none, streamKey := some "key", uploadedFile := none,
        videoLink := some "v", loopVideo := false } true none liveSt
      (Or.inl rfl),
   (goLiveValidation.2
      { streamUrl := some "rtmp://a/live2/", streamKey := some "key",
        uploadedFile := none, videoLink := some "", loopVideo := false }
      true none liveSt 7 rfl rfl rfl rfl rfl rfl).2.2⟩

/-- C6 counterexample: stopping a live session whose process performs the
expected clean shutdown (terminates on the `SIGTERM`, exit code `null`)
leaves the supervisor status `"idle"`, not `"stopped"` — the observable
`streamStatus` never takes the value `"stopped"`. -/
theorem stopCleanShutdownNotStopped :
    (stopHandler true none liveSt).final.streamStatus = "idle" ∧
    (stopHandler true none liveSt).final.streamStatus ≠ "stopped" := by
  refine ⟨rfl, by decide⟩

/-- C6 (amended): after `/api/stop` the supervisor's `streamStatus` is always
`"idle"`, whatever the exit code — an abnormal exit code only writes
`"error"` transiently before the handler overwrites it with `"idle"` — and
only the persisted `Stream` record (when one is live) is marked
`"stopped"`. -/
theorem stopFinalStatus :
    (∀ (g : Bool) (c : Option Int) (st : SupSt),
       (stopHandler g c st).final.streamStatus = "idle" ∧
       (stopHandler g c st).respStatus = "idle") ∧
    (∀ (g : Bool) (c : Option Int) (st : SupSt), st.dbStatus = some "live" →
       (stopHandler g c st).final.dbStatus = some "stopped") ∧
    (∀ (st : SupSt) (p : Nat) (k : Int), st.handle = some p →
       st.killedFlag = false → k ≠ 0 →
       (stopHandler true (some k) st).statusWrites =
         ["stopping", "error", "idle"]) := by
  refine ⟨?_, ?_, ?_⟩
  · intro g c st
    constructor
    · simp only [stopHandler]
      split <;> rfl
    · rfl
  · intro g c st h
    simp [stopHandler, h]
  · intro st p k hp hkf hk
    simp [stopHandler, hp, hkf, exitStatusWrite, hk]

/-- Instantiation of the clauses of `stopFinalStatus` at concrete inputs. -/
theorem stopFinalStatusApplied :
    (stopHandler true (some 1) liveSt).final.streamStatus = "idle" ∧
    (stopHandler true (some 1) liveSt).final.dbStatus = some "stopped" ∧
    (stopHandler true (some 1) liveSt).statusWrites =
      ["stopping", "error", "idle"] :=
  ⟨((stopFinalStatus.1 true (some 1) liveSt).1 : _),
   stopFinalStatus.2.1 true (some 1) liveSt rfl,
   stopFinalStatus.2.2 liveSt 7 1 rfl rfl (by decide)⟩

/-- C10: `/api/stop` with no process handle held is a status-resetting no-op:
`killStreamProcess` resolves at once without sending any signal, the response
is 200 with status `"idle"`, and whatever the prior status was — `"error"`
included — it is overwritten to `"idle"`. -/
theorem stopWithoutProcess (g : Bool) (c : Option Int) (st : SupSt)
    (h : st.handle = none) :
    (stopHandler g c st).final.streamStatus = "idle" ∧
    (stopHandler g c st).final.signals = st.signals ∧
    (stopHandler g c st).final.handle = none ∧
    (stopHandler g c st).httpStatus = 200 ∧
    (stopHandler g c st).respStatus = "idle" := by
  refine ⟨?_, ?_, ?_, rfl, rfl⟩ <;>
    simp [stopHandler, killStreamProcess, h] <;> split <;> rfl

/-- Instantiation of `stopWithoutProcess` on an errored, handle-free state. -/
theorem stopWithoutProcessApplied :
    (stopHandler true none
        { handle := none, killedFlag := false, streamStatus := "error",
          signals := [], dbStatus := none }).final.streamStatus = "idle" ∧
    (stopHandler true none
        { handle := none, killedFlag := false, streamStatus := "error",
          signals := [], dbStatus := none }).final.signals = [] :=
  ⟨(stopWithoutProcess true none
      { handle := none, killedFlag := false, streamStatus := "error",
        signals := [], dbStatus := none } rfl).1,
   (stopWithoutProcess true none
      { handle := none, killedFlag := false, streamStatus := "error",
        signals := [], dbStatus := none } rfl).2.1⟩

/-! ## The stream key in the server log -/

lemma toList_append (a b : String) : (a ++ b).toList = a.toList ++ b.toList := by
  simp [String.toList, String.data_append]

lemma suffix_strContains (s pat : String) (h : pat.toList <:+ s.toList) :
    strContains s pat = true := by
  unfold strContains
  apply List.any_eq_true.mpr
  refine ⟨pat.toList, (List.mem_tails pat.toList s.toList).mpr h, ?_⟩
  simp [List.isPrefixOf_iff_prefix]

lemma joinSpace_last_suffix :
    ∀ (xs : List String) (x : String),
      x.toList <:+ (joinSpace (xs ++ [x])).toList := by
  intro xs
  induction xs with
  | nil => intro x; simp [joinSpace]
  | cons y ys ih =>
      intro x
      cases hys : ys ++ [x] with
      | nil => simp at hys
      | cons z zs =>
          have h1 : joinSpace ((y :: ys) ++ [x]) =
              y ++ " " ++ joinSpace (ys ++ [x]) := by
            simp only [List.cons_append, hys, joinSpace]
          rw [h1, toList_append]
          exact (ih x).trans (List.suffix_append _ _)

/-- C8: the log line written when a stream starts contains the stream key:
the final argument is the RTMP URL, which is the stream URL with the key
appended, so the key is a trailing segment of the logged text for every
input — the key is not kept out of the server log. -/
theorem streamKeyInLogLine (i u k : String) (l : Bool) :
    strContains (ffmpegLogLine i u k l) k = true := by
  apply suffix_strContains
  have h1 : k.toList <:+ (rtmpUrl u k).toList := by
    rw [rtmpUrl, toList_append]
    exact List.suffix_append _ _
  have h2 : (rtmpUrl u k).toList <:+
      (joinSpace (ffmpegArgs i u k l)).toList := by
    rw [ffmpegArgs_eq_front_append]
    exact joinSpace_last_suffix (ffmpegArgsFront i l) (rtmpUrl u k)
  have h3 : (joinSpace (ffmpegArgs i u k l)).toList <:+
      (ffmpegLogLine i u k l).toList := by
    rw [ffmpegLogLine, toList_append]
    exact List.suffix_append _ _
  exact h1.trans (h2.trans h3)

/-! ## Interleaving two go-live requests

The go-live handler touches the shared globals in this order (lines 497–498,
444, 472–481): the `currentStreamProcess` kill check, the
`streamStatus = "starting"` assignment, the `spawn` assignment to
`currentStreamProcess`, and — asynchronously — the `exit` listeners of a
killed process, which assign `currentStreamProcess = null` unconditionally.
Between these atomic steps the handler awaits (`killStreamProcess`,
`stream.save()`, readiness), so steps of two concurrent requests can
interleave in any order consistent with each request's own program order. -/

/-- Shared-global state for the interleaving model: the current handle, the
set of processes that have been sent a signal (their `.killed` flags), the
processes that have been spawned and have not exited, the next fresh pid, and
`streamStatus`. -/
structure RaceSt where
  handle : Option Nat
  signalled : List Nat
  running : List Nat
  nextPid : Nat
  streamStatus : String
deriving DecidableEq, Repr

/-- One atomic step of a go-live request (or of the event loop). -/
inductive RaceEv
  /-- `if (currentStreamProcess) await killStreamProcess()`: signal the held
  process if its `.killed` flag is unset (the caller then waits for its exit);
  with the flag already set, `killStreamProcess` resolves immediately. -/
  | killCheck
  /-- `streamStatus = "starting"`. -/
  | setStarting
  /-- `currentStreamProcess = spawn(FFMPEG_PATH, ffmpegArgs)`. -/
  | spawnFF
  /-- Process `p` exits with `code`: the `exit` listeners run —
  `startFFmpegStream`'s handler updates the status and assigns
  `currentStreamProcess = null` unconditionally, and `killStreamProcess`'s
  listener clears it again and resumes the waiting request. -/
  | procExit (p : Nat) (code : Option Int)
deriving DecidableEq, Repr

def raceStep (s : RaceSt) : RaceEv → RaceSt
  | .killCheck =>
      match s.handle with
      | some p =>
          if p ∈ s.signalled then s
          else { s with signalled := s.signalled ++ [p] }
      | none => s
  | .setStarting => { s with streamStatus := "starting" }
  | .spawnFF =>
      { s with handle := some s.nextPid,
               running := s.running ++ [s.nextPid],
               nextPid := s.nextPid + 1 }
  | .procExit p code =>
      { s with running := s.running.erase p,
               handle := none,
               streamStatus := exitHandlerStatus s.streamStatus code }

/-- A live session: process 0 is running and held. -/
def raceInit : RaceSt :=
  { handle := some 0, signalled := [], running := [0], nextPid := 1,
    streamStatus := "live" }

/-- An event-loop order of two concurrent go-live requests A and B against
`raceInit`; each request's own steps appear in its program order:
1. A's kill check: process 0 is unsignalled, A sends `SIGTERM` and awaits;
2. B's kill check: process 0 has `.killed` set, so B proceeds at once;
3. B sets `streamStatus = "starting"` and awaits its `stream.save()`;
4. B spawns process 1 and awaits readiness;
5. process 0 exits (`SIGTERM`, code `null`): the listeners null out
   `currentStreamProcess` — which now references B's process 1 — and wake A;
6. A sets `streamStatus = "starting"`;
7. A spawns process 2. -/
def raceTrace : List RaceEv :=
  [.killCheck, .killCheck, .setStarting, .spawnFF, .procExit 0 none,
   .setStarting, .spawnFF]

def raceFinal : RaceSt := raceTrace.foldl raceStep raceInit

/-- C9: the handlers are not serialized: in the interleaving `raceTrace` both
concurrent go-live requests pass the kill check and both spawn, leaving two
FFmpeg processes (1 and 2) running at once while `currentStreamProcess`
references only process 2 — process 1 was signalled by no one and its handle
was first nulled by process 0's exit listeners, then overwritten. -/
theorem goLiveRaceTwoProcesses :
    raceFinal.running = [1, 2] ∧
    raceFinal.handle = some 2 ∧
    raceFinal.signalled = [0] := by
  refine ⟨rfl, rfl, rfl⟩

end YTLive
